import Mathlib

/-
Verification of the free-text skill-extraction and scoring engine of the
campus-placement repository.  The embedded code comes from
app/company_portal/job_parser.py (namespace JP below) and
app/ai_modules/resume_builder.py (namespace RB below).  Strings are modelled
as lists of characters; the specific regular expressions used by the source
are embedded through a small backtracking matcher (inductive Rx) whose
alternative order and greediness follow the Python re module on the pattern
constructs that actually occur in the source (literals, character classes,
greedy ?, * and +, alternation, word boundaries, capture groups).
-/

/-- Whitespace test matching the Python regex class for spaces and the
characters stripped by str.strip on ASCII input. -/
def pySpace (c : Char) : Bool :=
  c == ' ' || c == '\t' || c == '\n' || c == '\r' || c == '\x0b' || c == '\x0c'

/-- Word character in the sense of the regex word-boundary rule. -/
def isWordChar (c : Char) : Bool := c.isAlphanum || c == '_'

/-- Character-wise lower casing; the source applies str.lower to ASCII text. -/
def lowerList (s : List Char) : List Char := s.map Char.toLower

/-- Lower casing on strings, used to phrase case-insensitive comparisons. -/
def lowerStr (s : String) : String := String.mk (lowerList s.data)

/-- Python substring containment, needle in hay. -/
def listContains (hay needle : List Char) : Bool :=
  (List.range (hay.length + 1)).any (fun i => (hay.drop i).take needle.length == needle)

/-- Concatenation of the images of a list under a list-valued function. -/
def concatMap (f : α → List β) : List α → List β
  | [] => []
  | a :: t => f a ++ concatMap f t

/-- Python str.strip on ASCII input. -/
def pyStrip (s : List Char) : List Char :=
  ((s.dropWhile pySpace).reverse.dropWhile pySpace).reverse

/-- Split a character list at every character satisfying the predicate,
keeping empty fragments, as Python str.split with an explicit separator. -/
def splitOnPred (p : Char → Bool) : List Char → List (List Char)
  | [] => [[]]
  | c :: t =>
    if p c then [] :: splitOnPred p t
    else
      match splitOnPred p t with
      | [] => [[c]]
      | w :: ws => (c :: w) :: ws

/-- Python str.split with no argument: split on whitespace runs, dropping
empty fragments. -/
def pySplitWs (s : List Char) : List (List Char) :=
  (splitOnPred pySpace s).filter (fun w => !w.isEmpty)

/-- Joining word fragments with single spaces, as a space-join in Python. -/
def joinWords : List (List Char) → List Char
  | [] => []
  | [w] => w
  | w :: ws => w ++ ' ' :: joinWords ws

/-- Sentence separators of the source splitting regex. -/
def sentSep (c : Char) : Bool := c == '.' || c == '!' || c == '?'

/-- Helper for splitting on separator runs: interior empty fragments of a
single-character split correspond exactly to adjacent separators and are
dropped, while the final fragment is always kept. -/
def dropMidEmpties : List (List Char) → List (List Char)
  | [] => []
  | [x] => [x]
  | x :: xs => if x.isEmpty then dropMidEmpties xs else x :: dropMidEmpties xs

/-- re.split on one-or-more sentence separators, as used by the source for
education, responsibility and requirement sentences. -/
def splitSent (s : List Char) : List (List Char) :=
  match splitOnPred sentSep s with
  | [] => []
  | [x] => [x]
  | x :: rest => x :: dropMidEmpties rest

/-- Python str.split on a newline character. -/
def splitLines (s : List Char) : List (List Char) :=
  splitOnPred (fun c => c == '\n') s

/- A small regex abstract syntax covering the constructs of the source
patterns.  grp records a numbered capture group. -/
inductive Rx where
  | eps : Rx
  | lit : Char → Rx
  | cls : (Char → Bool) → Rx
  | seq : Rx → Rx → Rx
  | alt : Rx → Rx → Rx
  | opt : Rx → Rx
  | star : Rx → Rx
  | plus : Rx → Rx
  | wordB : Rx
  | grp : Nat → Rx → Rx

/-- Capture list: group index with start and end positions. -/
abbrev Caps := List (Nat × Nat × Nat)

/-- Word-character test at a position, out of range counting as non-word. -/
def wordAt (s : List Char) (i : Nat) : Bool :=
  match s.get? i with
  | some c => isWordChar c
  | none => false

/-- Word boundary at a position, as the regex backslash-b assertion. -/
def boundaryAt (s : List Char) (p : Nat) : Bool :=
  (if p == 0 then false else wordAt s (p - 1)) != wordAt s p

/-- Greedy iteration for star: all continuations that consume at least one
character first, deepest first, then stopping here.  The fuel bounds the
number of iterations; callers pass more fuel than the remaining length so
the bound is never the limiting factor. -/
def starAux (step : Nat → List (Nat × Caps)) : Nat → Nat → Caps → List (Nat × Caps)
  | 0, p, cs => [(p, cs)]
  | fuel + 1, p, cs =>
    (concatMap (fun r => starAux step fuel r.1 (r.2 ++ cs))
      ((step p).filter (fun r => decide (p < r.1)))) ++ [(p, cs)]

/-- Run a pattern at a position of the subject, returning the possible end
positions with their captures, in the priority order of a backtracking
matcher (first alternative first, greedy quantifiers longest first). -/
def Rx.runM : Rx → List Char → Nat → List (Nat × Caps)
  | .eps, _, p => [(p, [])]
  | .lit c, s, p =>
    match s.get? p with
    | some d => if d == c then [(p + 1, [])] else []
    | none => []
  | .cls f, s, p =>
    match s.get? p with
    | some d => if f d then [(p + 1, [])] else []
    | none => []
  | .seq a b, s, p =>
    concatMap (fun r => (Rx.runM b s r.1).map (fun t => (t.1, t.2 ++ r.2))) (Rx.runM a s p)
  | .alt a b, s, p => Rx.runM a s p ++ Rx.runM b s p
  | .opt a, s, p => Rx.runM a s p ++ [(p, [])]
  | .star a, s, p => starAux (fun q => Rx.runM a s q) (s.length + 1) p []
  | .plus a, s, p =>
    concatMap (fun r => starAux (fun q => Rx.runM a s q) (s.length + 1) r.1 r.2)
      (Rx.runM a s p)
  | .wordB, s, p => if boundaryAt s p then [(p, [])] else []
  | .grp i a, s, p => (Rx.runM a s p).map (fun r => (r.1, (i, p, r.1) :: r.2))

/-- re.search semantics from a given start offset: the leftmost position with
a match wins and its first backtracking alternative is taken.  Returns match
start, match end and captures. -/
def searchSpan (r : Rx) (s : List Char) (start : Nat) : Option (Nat × Nat × Caps) :=
  (List.range' start (s.length + 1 - start)).findSome? (fun p =>
    match Rx.runM r s p with
    | [] => none
    | t :: _ => some (p, t.1, t.2))

/-- re.finditer semantics: repeated non-overlapping leftmost matches; on an
empty match the scan advances by one character. -/
def finditerAux (r : Rx) (s : List Char) : Nat → Nat → List (Nat × Nat)
  | 0, _ => []
  | fuel + 1, start =>
    match searchSpan r s start with
    | none => []
    | some (a, b, _) => (a, b) :: finditerAux r s fuel (if a < b then b else b + 1)

/-- All matches of a pattern over a subject, as spans. -/
def finditer (r : Rx) (s : List Char) : List (Nat × Nat) :=
  finditerAux r s (s.length + 1) 0

/-- Substring of a character list by a half-open span, as a string. -/
def sliceStr (s : List Char) (a b : Nat) : String :=
  String.mk ((s.drop a).take (b - a))

/-- Sequence of literal characters. -/
def lits : List Char → Rx
  | [] => .eps
  | c :: cs => .seq (.lit c) (lits cs)

/-- Literal string pattern. -/
def litStr (s : String) : Rx := lits s.data

/-- Sequencing of a list of patterns. -/
def seqL (l : List Rx) : Rx := l.foldr Rx.seq Rx.eps

/-- Regex class backslash-s. -/
def wsCls : Rx := .cls pySpace

/-- Greedy backslash-s star. -/
def wsStar : Rx := .star wsCls

/-- Greedy backslash-s plus. -/
def wsPlus : Rx := .plus wsCls

/-- Regex class backslash-d. -/
def digitCls : Rx := .cls Char.isDigit

/-- Greedy backslash-d plus. -/
def digitsRx : Rx := .plus digitCls

namespace JP

/-- Skill database of JobParser.load_skill_database, category by category in
the insertion order of the source dictionary. -/
def skill_database : List (String × List String) :=
  [("programming", ["Python", "Java", "JavaScript", "C++", "C#", "Go", "Rust", "Swift",
      "Kotlin", "TypeScript"]),
   ("web_dev", ["HTML", "CSS", "React", "Angular", "Vue", "Node.js", "Express", "Django",
      "Flask", "Spring"]),
   ("mobile", ["React Native", "Flutter", "Android", "iOS", "Xamarin"]),
   ("databases", ["SQL", "MySQL", "PostgreSQL", "MongoDB", "Redis", "Cassandra", "Oracle",
      "SQLite"]),
   ("cloud", ["AWS", "Azure", "GCP", "Docker", "Kubernetes", "Terraform", "Ansible",
      "Jenkins", "CI/CD"]),
   ("data_science", ["Python", "R", "SQL", "Pandas", "NumPy", "Scikit-learn", "TensorFlow",
      "PyTorch", "Tableau", "Power BI"]),
   ("ai_ml", ["Machine Learning", "Deep Learning", "NLP", "Computer Vision",
      "Reinforcement Learning", "MLOps"]),
   ("devops", ["Linux", "Bash", "Git", "Docker", "Kubernetes", "AWS", "Azure", "Jenkins",
      "Terraform"]),
   ("soft_skills", ["Communication", "Leadership", "Teamwork", "Problem-solving",
      "Critical Thinking", "Time Management"]),
   ("tools", ["Git", "JIRA", "Confluence", "Slack", "Figma", "VS Code", "IntelliJ",
      "Postman"])]

/-- Word-boundary pattern for one skill: backslash-b, the escaped lowered
skill, backslash-b, as built by JobParser.extract_skills. -/
def skillRx (skill : String) : Rx :=
  seqL [.wordB, lits (lowerList skill.data), .wordB]

/-- Successful re.search of the skill pattern in the lowered text. -/
def skillFound (low : List Char) (skill : String) : Bool :=
  (searchSpan (skillRx skill) low 0).isSome

/-- JobParser.extract_skills: per category, the database skills whose
word-bounded lowered form occurs in the lowered text; categories with no hit
are omitted. -/
def extract_skills (text : String) : List (String × List String) :=
  skill_database.filterMap (fun p =>
    let found := p.2.filter (fun sk => skillFound (lowerList text.data) sk)
    if found.isEmpty then none else some (p.1, found))

/-- Alternation years, year, yrs, yr in the priority order of the source
group, with greedy optional plural. -/
def yearsRx : Rx :=
  .alt (.seq (litStr "year") (.opt (.lit 's'))) (.seq (litStr "yr") (.opt (.lit 's')))

/-- First experience pattern of JobParser.extract_experience. -/
def expP1 : Rx :=
  .grp 1 (seqL [digitsRx, .opt (.lit '+'), wsStar, yearsRx, wsStar, .opt (litStr "of"),
    wsStar, litStr "experience"])

/-- Second experience pattern of JobParser.extract_experience. -/
def expP2 : Rx :=
  seqL [litStr "experience", wsStar, .opt (litStr "of"), wsStar,
    .grp 1 (seqL [digitsRx, .opt (.lit '+'), wsStar, yearsRx])]

/-- Third experience pattern of JobParser.extract_experience. -/
def expP3 : Rx :=
  seqL [.grp 1 digitsRx, wsStar, .lit '-', wsStar, .grp 2 digitsRx, wsStar, yearsRx,
    wsStar, litStr "experience"]

/-- Whole-match substrings of all three experience patterns, in finditer
order per pattern; matching is done on the lowered text (IGNORECASE) and the
substrings are taken from the original text. -/
def rawExperienceMatches (text : String) : List String :=
  concatMap (fun r =>
      (finditer r (lowerList text.data)).map (fun ab => sliceStr text.data ab.1 ab.2))
    [expP1, expP2, expP3]

/-- JobParser.extract_experience.  The source ends with list(set(...)), whose
iteration order is implementation defined in CPython (hash randomised for
strings); only the underlying duplicate-free set is modelled, here through
List.dedup. -/
def extract_experience (text : String) : List String :=
  (rawExperienceMatches text).dedup

/-- Education keyword list of the source, verbatim; several entries contain
regex escapes but are used by the source as literal substrings. -/
def education_keywords : List String :=
  ["bachelor", "b\\.?tech", "b\\.?e", "b\\.?sc",
   "master", "m\\.?tech", "m\\.?e", "m\\.?sc", "mba",
   "phd", "doctorate", "degree", "diploma",
   "graduat", "qualif", "certif"]

/-- JobParser.extract_education: sentences containing an education keyword,
stripped, first five. -/
def extract_education (text : String) : List String :=
  (((splitSent text.data).filter (fun sent =>
      education_keywords.any (fun k => listContains (lowerList sent) k.data))).map
    (fun sent => String.mk (pyStrip sent))).take 5

/-- Responsibility keyword list of the source. -/
def responsibility_keywords : List String :=
  ["responsible", "responsibilit", "duties", "role", "will", "must", "should",
   "requires to"]

/-- Per-sentence filter of JobParser.extract_responsibilities: keep a
keyword-bearing sentence after whitespace normalisation only when it has more
than four words. -/
def respFilter (sent : List Char) : Option String :=
  if responsibility_keywords.any (fun k => listContains (lowerList sent) k.data) then
    let clean := joinWords (pySplitWs sent)
    if 4 < (pySplitWs clean).length then some (String.mk clean) else none
  else none

/-- JobParser.extract_responsibilities: filtered sentences, first ten. -/
def extract_responsibilities (text : String) : List String :=
  ((splitSent text.data).filterMap respFilter).take 10

/-- Requirement keyword list of the source. -/
def requirement_keywords : List String :=
  ["requirement", "required", "must have", "should have", "need to have", "essential",
   "preferred", "qualif"]

/-- JobParser.extract_requirements: sentences containing a requirement
keyword, stripped, first ten; no length filter. -/
def extract_requirements (text : String) : List String :=
  (((splitSent text.data).filter (fun sent =>
      requirement_keywords.any (fun k => listContains (lowerList sent) k.data))).map
    (fun sent => String.mk (pyStrip sent))).take 10

/-- Class for the leading capital of the title and location groups; the
source compiles with IGNORECASE, so the class matches any letter. -/
def capCls (c : Char) : Bool := c.isAlpha

/-- Class for the title group body: letters, whitespace and ampersand. -/
def titleBodyCls (c : Char) : Bool := c.isAlpha || pySpace c || c == '&'

/-- Alternation position, role, job of the title patterns. -/
def posRoleJob : Rx := .alt (litStr "position") (.alt (litStr "role") (litStr "job"))

/-- First job-title pattern of JobParser.extract_job_title. -/
def titleP1 : Rx :=
  seqL [posRoleJob, wsStar, .opt (litStr "of"), wsStar,
    .grp 1 (.seq (.cls capCls) (.plus (.cls titleBodyCls))),
    .opt (seqL [wsPlus, posRoleJob])]

/-- Second job-title pattern of JobParser.extract_job_title. -/
def titleP2 : Rx :=
  seqL [.grp 1 (.seq (.cls capCls) (.plus (.cls titleBodyCls))), wsStar,
    .alt (litStr "position") (.alt (litStr "role") (.alt (litStr "job") (litStr "opening")))]

/-- Third job-title pattern of JobParser.extract_job_title. -/
def titleP3 : Rx :=
  seqL [litStr "we are hiring", wsStar, .grp 1 (.seq (.cls capCls) (.plus (.cls titleBodyCls)))]

/-- Fourth job-title pattern of JobParser.extract_job_title. -/
def titleP4 : Rx :=
  seqL [litStr "looking for", wsStar, .grp 1 (.seq (.cls capCls) (.plus (.cls titleBodyCls)))]

/-- Span of capture group one of a match. -/
def group1 (orig : List Char) (caps : Caps) : Option String :=
  (caps.find? (fun t => t.1 == 1)).map (fun t => sliceStr orig t.2.1 t.2.2)

/-- Ordered first-pattern-wins search returning capture group one, matching
on the lowered text (IGNORECASE) and slicing the original text. -/
def firstGroup1 (pats : List Rx) (text : String) : Option String :=
  pats.findSome? (fun r =>
    match searchSpan r (lowerList text.data) 0 with
    | some (_, _, caps) => group1 text.data caps
    | none => none)

/-- JobParser.extract_job_title: first pattern that matches wins, capture
group one stripped, else the sentinel. -/
def extract_job_title (text : String) : String :=
  match firstGroup1 [titleP1, titleP2, titleP3, titleP4] text with
  | some s => String.mk (pyStrip s.data)
  | none => "Not Specified"

/-- Class for the location group body: letters, whitespace and comma. -/
def locBodyCls (c : Char) : Bool := c.isAlpha || pySpace c || c == ','

/-- Class colon-or-whitespace of the location and salary prefixes. -/
def colonWs (c : Char) : Bool := c == ':' || pySpace c

/-- First location pattern of JobParser.extract_location. -/
def locP1 : Rx :=
  seqL [litStr "location", .plus (.cls colonWs),
    .grp 1 (.seq (.cls capCls) (.plus (.cls locBodyCls)))]

/-- Second location pattern of JobParser.extract_location. -/
def locP2 : Rx :=
  seqL [litStr "based in", wsPlus, .grp 1 (.seq (.cls capCls) (.plus (.cls locBodyCls)))]

/-- Third location pattern of JobParser.extract_location. -/
def locP3 : Rx :=
  seqL [litStr "work from", wsPlus, .grp 1 (.seq (.cls capCls) (.plus (.cls locBodyCls)))]

/-- JobParser.extract_location: first pattern wins, group one stripped, else
the sentinel. -/
def extract_location (text : String) : String :=
  match firstGroup1 [locP1, locP2, locP3] text with
  | some s => String.mk (pyStrip s.data)
  | none => "Not Specified"

/-- Currency class of the salary patterns; the source file stores the three
currency signs in mojibake, giving this literal character set. -/
def curCls (c : Char) : Bool :=
  c == '$' || c == '‚' || c == 'Ç' || c == 'π' || c == '¨'

/-- Class comma-or-digit of the salary amount. -/
def commaDig (c : Char) : Bool := c == ',' || c.isDigit

/-- One salary amount: optional currency sign, digits with comma groups, an
optional decimal part and an optional k suffix (IGNORECASE folds kK to k). -/
def salAmount : Rx :=
  seqL [.opt (.cls curCls), wsStar, digitsRx, .star (.cls commaDig),
    .opt (.seq (.lit '.') digitsRx), wsStar, .opt (.lit 'k')]

/-- Range separator of the salary patterns: a dash or the word to. -/
def salSep : Rx := .alt (.lit '-') (seqL [wsPlus, litStr "to", wsPlus])

/-- Captured body shared by the three salary patterns. -/
def salBody : Rx := .grp 1 (seqL [salAmount, wsStar, salSep, wsStar, salAmount])

/-- A salary pattern with its leading keyword. -/
def salP (pre : String) : Rx := seqL [litStr pre, .plus (.cls colonWs), salBody]

/-- JobParser.extract_salary: the range field of the returned dictionary;
capture group one is returned unstripped, else the sentinel. -/
def extract_salary_range (text : String) : String :=
  match firstGroup1 [salP "salary", salP "compensation", salP "pay"] text with
  | some s => s
  | none => "Not Specified"

/-- JobParser.extract_company: the first of the first five lines that strips
to something non-empty of at most five words, else the sentinel. -/
def extract_company (text : String) : String :=
  match ((splitLines text.data).take 5).findSome? (fun line =>
      let st := pyStrip line
      if !st.isEmpty && decide ((pySplitWs st).length ≤ 5) then some (String.mk st)
      else none) with
  | some s => s
  | none => "Not Specified"

/-- ExtractionResult: the nine extraction fields of the dictionary built by
JobParser.parse_job_description before scoring.  The salary dictionary is
represented by its single range field. -/
structure ExtractionResult where
  skills : List (String × List String)
  experience : List String
  education : List String
  responsibilities : List String
  requirements : List String
  job_title : String
  location : String
  salary_range : String
  company : String

/-- The extraction part of JobParser.parse_job_description. -/
def parse_extraction (text : String) : ExtractionResult :=
  { skills := extract_skills text
    experience := extract_experience text
    education := extract_education text
    responsibilities := extract_responsibilities text
    requirements := extract_requirements text
    job_title := extract_job_title text
    location := extract_location text
    salary_range := extract_salary_range text
    company := extract_company text }

/-- JobParser.calculate_complexity, with the sequential score accumulation of
the source. -/
def calculate_complexity (e : ExtractionResult) : Nat :=
  let s1 := e.skills.length * 5
  let s2 := s1 + (if e.experience.isEmpty then 0 else 20)
  let s3 := s2 + (if e.education.isEmpty then 0 else 15)
  let s4 := s3 + min (e.responsibilities.length * 3) 15
  let s5 := s4 + min (e.requirements.length * 2) 10
  min s5 100

/-- Fixed common keyword list of JobParser.generate_ats_keywords. -/
def common_ats_keywords : List String :=
  ["team player", "problem solver", "detail oriented",
   "fast learner", "excellent communication", "leadership",
   "project management", "results driven", "self motivated",
   "critical thinking", "analytical skills", "creative",
   "adaptable", "reliable", "professional"]

/-- JobParser.generate_ats_keywords.  The source computes
list(set(keywords))[:20]; as for extract_experience, the CPython set
iteration order is implementation defined, so only a duplicate-free listing
of the set, truncated to twenty, is modelled. -/
def generate_ats_keywords (e : ExtractionResult) : List String :=
  ((concatMap (fun p => p.2) e.skills) ++ common_ats_keywords).dedup.take 20

/-- Record returned by JobParser.parse_job_description: the extraction
fields plus the complexity score and the ATS keywords. -/
structure ParsedJob where
  extraction : ExtractionResult
  complexity_score : Nat
  ats_keywords : List String

/-- JobParser.parse_job_description. -/
def parse_job_description (text : String) : ParsedJob :=
  let e := parse_extraction text
  { extraction := e
    complexity_score := calculate_complexity e
    ats_keywords := generate_ats_keywords e }

end JP

namespace RB

/-- Skill database of ResumeBuilder.load_skill_database. -/
def skill_database : List (String × List String) :=
  [("Programming", ["Python", "Java", "JavaScript", "C++", "SQL", "R", "Go", "Rust",
      "TypeScript"]),
   ("Web Development", ["HTML", "CSS", "React", "Angular", "Vue", "Node.js", "Django",
      "Flask", "Spring"]),
   ("Data Science", ["Pandas", "NumPy", "TensorFlow", "PyTorch", "Scikit-learn", "Tableau",
      "Power BI"]),
   ("Cloud & DevOps", ["AWS", "Azure", "GCP", "Docker", "Kubernetes", "Terraform",
      "Jenkins"]),
   ("Databases", ["MySQL", "PostgreSQL", "MongoDB", "Redis", "Oracle", "Cassandra"]),
   ("Soft Skills", ["Communication", "Leadership", "Teamwork", "Problem-solving",
      "Creativity", "Time Management"]),
   ("Tools", ["Git", "JIRA", "Confluence", "Slack", "Figma", "VS Code", "Postman"])]

/-- ResumeBuilder.extract_skills: same word-boundary matching as the job
parser, over the resume-builder database. -/
def extract_skills (text : String) : List (String × List String) :=
  skill_database.filterMap (fun p =>
    let found := p.2.filter (fun sk => JP.skillFound (lowerList text.data) sk)
    if found.isEmpty then none else some (p.1, found))

/-- Resume fields consulted by ResumeBuilder.calculate_ats_score; each field
is a string and Python truthiness of a field is non-emptiness.  The skills
field takes the string branch of the isinstance test of the source. -/
structure AtsInput where
  experience : String
  education : String
  skills : String
  summary : String

/-- Action-verb list of the quantifiable-achievement check. -/
def action_verbs : List String :=
  ["increased", "reduced", "improved", "achieved", "developed"]

/-- Score accumulated by ResumeBuilder.calculate_ats_score before the final
clamp: 20 per present section, up to 30 for comma-separated skills, 20 for an
action verb in the experience text, 10 for a summary whose length is strictly
between 50 and 200. -/
def ats_raw_score (d : AtsInput) : Nat :=
  (if d.experience.isEmpty then 0 else 20)
  + (if d.education.isEmpty then 0 else 20)
  + (if d.skills.isEmpty then 0 else 20)
  + (if d.skills.isEmpty then 0
     else min ((splitOnPred (fun c => c == ',') d.skills.data).length * 2) 30)
  + (if d.experience.isEmpty then 0
     else if action_verbs.any (fun v => listContains (lowerList d.experience.data) v.data)
     then 20 else 0)
  + (if 50 < d.summary.length ∧ d.summary.length < 200 then 10 else 0)

/-- Feedback lines appended by ResumeBuilder.calculate_ats_score, in the
order of the source. -/
def ats_feedback (d : AtsInput) : List String :=
  (if d.experience.isEmpty then ["Missing experience section"] else [])
  ++ (if d.education.isEmpty then ["Missing education section"] else [])
  ++ (if d.skills.isEmpty then ["Missing skills section"] else [])
  ++ (if d.experience.isEmpty then []
      else if action_verbs.any (fun v => listContains (lowerList d.experience.data) v.data)
      then ["✅ Good use of action verbs and quantifiable results"]
      else ["⚠️ Add more quantifiable achievements"])
  ++ (if 50 < d.summary.length ∧ d.summary.length < 200 then []
      else ["⚠️ Summary should be 50-200 characters"])

/-- Result of ResumeBuilder.calculate_ats_score. -/
structure AtsResult where
  score : Nat
  feedback : List String
  level : String

/-- ResumeBuilder.calculate_ats_score: clamped score, feedback, and the level
thresholds applied to the unclamped score as in the source. -/
def calculate_ats_score (d : AtsInput) : AtsResult :=
  { score := min (ats_raw_score d) 100
    feedback := ats_feedback d
    level := if 80 ≤ ats_raw_score d then "Excellent"
             else if 60 ≤ ats_raw_score d then "Good"
             else "Needs Improvement" }

/-- MatchResult of ResumeBuilder.analyze_job_fit. -/
structure MatchResult where
  match_score : ℚ
  matched_skills : List String
  missing_skills : List String
  suggestions : List String
deriving DecidableEq

/-- Python dict.get with empty-list default over the grouped-skill mapping. -/
def lookupSkills : List (String × List String) → String → List String
  | [], _ => []
  | p :: t, cat => if p.1 = cat then p.2 else lookupSkills t cat

/-- The (category, skill) pairs of a grouped extraction, in iteration
order. -/
def jobPairs (job : List (String × List String)) : List (String × String) :=
  concatMap (fun p => p.2.map (fun s => (p.1, s))) job

/-- Full matched-skill list of the analyze_job_fit loop, before the cap. -/
def matchedFull (resume job : List (String × List String)) : List String :=
  ((jobPairs job).filter (fun q => decide (q.2 ∈ lookupSkills resume q.1))).map
    (fun q => q.2)

/-- Full missing-skill list of the analyze_job_fit loop, before the cap. -/
def missingFull (resume job : List (String × List String)) : List String :=
  ((jobPairs job).filter (fun q => !decide (q.2 ∈ lookupSkills resume q.1))).map
    (fun q => q.2)

/-- Floor of a rational, computed as the floor division of numerator by
denominator so that the kernel can evaluate it. -/
def ratFloor (q : ℚ) : ℤ := Int.fdiv q.num (q.den : ℤ)

/-- Python round(x, 1) as exact rational arithmetic.  CPython rounds the
float half-to-even; the two agree away from exact .05 boundaries, and every
value this development evaluates is away from such a boundary. -/
def round1 (q : ℚ) : ℚ := ((ratFloor (q * 10 + 1 / 2) : ℤ) : ℚ) / 10

/-- The raw match score of analyze_job_fit: percentage of matched pairs
among all job pairs, and 0 when there are no pairs at all. -/
def matchRaw (resume job : List (String × List String)) : ℚ :=
  if 0 < (matchedFull resume job).length + (missingFull resume job).length then
    ((matchedFull resume job).length : ℚ)
      / (((matchedFull resume job).length : ℚ) + ((missingFull resume job).length : ℚ))
      * 100
  else 0

/-- The part of ResumeBuilder.analyze_job_fit after the two skill
extractions: score from the full lists, returned lists capped at ten,
suggestions as in the source.  Scores are modelled in the rationals; at the
points the claims evaluate, the float arithmetic of the source is exact. -/
def analyze_core (resume job : List (String × List String)) : MatchResult :=
  { match_score := round1 (matchRaw resume job)
    matched_skills := (matchedFull resume job).take 10
    missing_skills := (missingFull resume job).take 10
    suggestions :=
      [if (missingFull resume job).isEmpty then "Good skill match!"
       else "Add these skills: " ++ String.intercalate ", " ((missingFull resume job).take 5),
       "Use more quantifiable achievements",
       "Tailor your summary to the job role"] }

/-- ResumeBuilder.analyze_job_fit.  The first argument stands for the
json.dumps serialisation of the resume dictionary, which the source feeds to
extract_skills as plain text. -/
def analyze_job_fit (resumeText jobText : String) : MatchResult :=
  analyze_core (extract_skills resumeText) (extract_skills jobText)

end RB

/- Spec-side definitions.  Each of the following definitions transcribes the
words of a claim (not the source) so that a counterexample can compare the
claimed behaviour with the embedded code. -/

/-- All skill names of a grouped extraction, across categories. -/
def allSkillNames (g : List (String × List String)) : List String :=
  concatMap (fun p => p.2) g

/-- Claim C2 formula: as claim C2 words it, with the skill-category
contribution capped at 30. -/
def complexity_claimed (e : JP.ExtractionResult) : Nat :=
  min (min (e.skills.length * 5) 30
    + (if e.experience.isEmpty then 0 else 20)
    + (if e.education.isEmpty then 0 else 15)
    + min (e.responsibilities.length * 3) 15
    + min (e.requirements.length * 2) 10) 100

/-- Amended claim C2 formula: the same weighted sum with no cap on the
skill-category contribution, clamped to 100 - what the source computes. -/
def complexity_nocap (e : JP.ExtractionResult) : Nat :=
  min (e.skills.length * 5
    + (if e.experience.isEmpty then 0 else 20)
    + (if e.education.isEmpty then 0 else 15)
    + min (e.responsibilities.length * 3) 15
    + min (e.requirements.length * 2) 10) 100

/-- First experience shape claimed by C5: digits, optional plus or minus
sign, years or yrs, optional of, then the word experience. -/
def expClaimedP1 : Rx :=
  seqL [digitsRx, .opt (.alt (.lit '+') (.lit '-')), wsStar, JP.yearsRx, wsStar,
    .opt (litStr "of"), wsStar, litStr "experience"]

/-- Second experience shape claimed by C5: a digit range then years and the
word experience. -/
def expClaimedP2 : Rx :=
  seqL [digitsRx, wsStar, .lit '-', wsStar, digitsRx, wsStar, JP.yearsRx, wsStar,
    litStr "experience"]

/-- First-occurrence-preserving deduplication, as claim C5 words it. -/
def pyDedupFirst (l : List String) : List String :=
  l.foldl (fun acc s => if s ∈ acc then acc else acc ++ [s]) []

/-- Experience extraction as claim C5 words it: the matched substrings of
the two claimed shapes, deduplicated preserving first occurrence. -/
def experience_claimed (text : String) : List String :=
  pyDedupFirst (concatMap (fun r =>
      (finditer r (lowerList text.data)).map (fun ab => sliceStr text.data ab.1 ab.2))
    [expClaimedP1, expClaimedP2])

/-- Summary bonus as claim C8 words it: ten points when the length lies in
the half-open interval from 50 inclusive to 200 exclusive. -/
def summary_bonus_claimed (s : String) : Nat :=
  if 50 ≤ s.length ∧ s.length < 200 then 10 else 0

/-- Text whose parse hits nine skill categories and nothing else, used for
claim C2. -/
def jdSkillsText : String := "Python HTML Flutter SQL AWS NLP Linux Git"

/-- Resume text of the claim C10 instance: twelve of the sixteen job
skills. -/
def c10ResumeText : String :=
  "Python Java JavaScript SQL R HTML CSS React Angular Vue Django Flask"

/-- Job text of the claim C10 instance: sixteen skills over three
categories. -/
def c10JobText : String :=
  "Python Java JavaScript SQL R Go Rust HTML CSS React Angular Vue Django Flask MySQL Redis"

/-- ATS input of the claim C8 boundary instance: empty sections and a
summary of exactly fifty characters. -/
def c8Input : RB.AtsInput :=
  { experience := "", education := "", skills := "",
    summary := String.mk (List.replicate 50 'a') }

/- Helper lemmas shared by the claim proofs. -/

/-- Membership in a concatMap image. -/
theorem mem_concatMap {f : α → List β} {b : β} :
    ∀ {l : List α}, b ∈ concatMap f l ↔ ∃ a ∈ l, b ∈ f a := by
  intro l
  induction l with
  | nil => simp [concatMap]
  | cons a t ih => simp [concatMap, ih]

/-- Every per-category skill list of the job-parser database is free of
case-insensitive duplicates. -/
theorem db_lower_nodup : ∀ q ∈ JP.skill_database, (q.2.map lowerStr).Nodup := by decide

/-- Python round of zero at one decimal. -/
theorem round1_zero : RB.round1 0 = 0 := by with_unfolding_all decide

/-- Python round of one hundred at one decimal. -/
theorem round1_hundred : RB.round1 100 = 100 := by with_unfolding_all decide

/-- Association lookup returns the list of a present key when the keys are
free of duplicates. -/
theorem lookupSkills_eq_of_mem :
    ∀ (g : List (String × List String)), (g.map Prod.fst).Nodup →
      ∀ p ∈ g, RB.lookupSkills g p.1 = p.2 := by
  intro g
  induction g with
  | nil => intro _ p hp; cases hp
  | cons q t ih =>
    intro hnd p hp
    rw [List.map_cons, List.nodup_cons] at hnd
    rcases List.mem_cons.mp hp with rfl | hp2
    · simp [RB.lookupSkills]
    · have hne : q.1 ≠ p.1 := by
        intro he
        exact hnd.1 (by rw [he]; exact List.mem_map_of_mem Prod.fst hp2)
      simp only [RB.lookupSkills, if_neg hne]
      exact ih hnd.2 p hp2

/-- Claim C1, counterexample: on the text python the extractor returns the
skill Python under both the programming and the data_science categories, so
one extraction result does contain two entries with the same name under
case-insensitive comparison. -/
theorem c1_counterexample :
    JP.extract_skills "python" = [("programming", ["Python"]), ("data_science", ["Python"])] ∧
    ¬ ((allSkillNames (JP.extract_skills "python")).map lowerStr).Nodup := by
  exact ⟨by decide, by decide⟩

/-- Claim C1 as amended: within each category of an extraction result the
skill names are pairwise distinct under case-insensitive comparison; across
categories a name recurs exactly when the taxonomy lists it under several
categories. -/
theorem c1_holds (text : String) (p : String × List String)
    (hp : p ∈ JP.extract_skills text) : (p.2.map lowerStr).Nodup := by
  unfold JP.extract_skills at hp
  obtain ⟨q, hq, hfq⟩ := List.mem_filterMap.mp hp
  by_cases hempty : (q.2.filter (fun sk => JP.skillFound (lowerList text.data) sk)).isEmpty
  · simp [hempty] at hfq
  · simp only [hempty, Bool.false_eq_true, if_false, Option.some.injEq] at hfq
    have hsub : List.Sublist
        ((q.2.filter (fun sk => JP.skillFound (lowerList text.data) sk)).map lowerStr)
        (q.2.map lowerStr) := (List.filter_sublist q.2).map lowerStr
    have := (db_lower_nodup q hq).sublist hsub
    rw [← hfq]
    exact this

/-- Claim C1 witness: the amended statement applied to the extraction from
the text python, category programming. -/
theorem c1_witness : ((["Python"].map lowerStr)).Nodup :=
  c1_holds "python" ("programming", ["Python"]) (by decide)

/-- Claim C2, counterexample: a parse of a text hitting nine skill
categories gets complexity 45 from the code, while the claimed formula with
its cap of 30 on the skill contribution yields 30. -/
theorem c2_counterexample :
    JP.calculate_complexity (JP.parse_extraction jdSkillsText) = 45 ∧
    complexity_claimed (JP.parse_extraction jdSkillsText) = 30 := by
  exact ⟨by decide, by decide⟩

/-- Claim C2 as amended: the complexity score is the weighted sum with five
points per skill category without any cap on that contribution, twenty for
experience, fifteen for education, three per responsibility capped at
fifteen, two per requirement capped at ten, the total clamped to 100; the
result always lies in the interval from 0 to 100. -/
theorem c2_holds (e : JP.ExtractionResult) :
    JP.calculate_complexity e = complexity_nocap e ∧ JP.calculate_complexity e ≤ 100 := by
  constructor
  · rfl
  · exact Nat.min_le_right _ _

/-- Claim C3: parsing the empty string raises nothing and yields empty
sequences and the sentinel for every scalar field. -/
theorem c3_holds :
    (JP.parse_job_description "").extraction.skills = [] ∧
    (JP.parse_job_description "").extraction.experience = [] ∧
    (JP.parse_job_description "").extraction.education = [] ∧
    (JP.parse_job_description "").extraction.responsibilities = [] ∧
    (JP.parse_job_description "").extraction.requirements = [] ∧
    (JP.parse_job_description "").extraction.job_title = "Not Specified" ∧
    (JP.parse_job_description "").extraction.location = "Not Specified" ∧
    (JP.parse_job_description "").extraction.salary_range = "Not Specified" ∧
    (JP.parse_job_description "").extraction.company = "Not Specified" := by
  refine ⟨by decide, by decide, by decide, by decide, by decide, by decide, by decide,
    by decide, by decide⟩

/-- Claim C5, counterexample: on the text experience of 5 years the code
returns the match of its second source pattern, a shape the claim does not
list, while the two claimed shapes match nothing, so the claimed
characterisation of the output is wrong. -/
theorem c5_counterexample :
    JP.extract_experience "experience of 5 years" = ["experience of 5 years"] ∧
    experience_claimed "experience of 5 years" = [] := by
  exact ⟨by decide, by decide⟩

/-- Claim C5 as amended: the experience list holds exactly the substrings
matched by the three source patterns, including the shape with the word
experience before the duration, without duplicates; the order is the
implementation-defined CPython set order, not first occurrence. -/
theorem c5_holds (text : String) :
    (JP.extract_experience text).Nodup ∧
    (∀ s : String, s ∈ JP.extract_experience text ↔ s ∈ JP.rawExperienceMatches text) :=
  ⟨List.nodup_dedup _, fun _ => List.mem_dedup⟩

/-- Claim C9: a responsibility sentence always has more than four words
after whitespace normalisation, while the requirement and education buckets
accept keyword sentences of any length, shown on two-word examples. -/
theorem c9_holds :
    (∀ (text s : String), s ∈ JP.extract_responsibilities text →
        4 < (pySplitWs s.data).length) ∧
    JP.extract_requirements "Required: SQL" = ["Required: SQL"] ∧
    JP.extract_education "MBA degree" = ["MBA degree"] ∧
    (pySplitWs ("Required: SQL").data).length ≤ 4 ∧
    (pySplitWs ("MBA degree").data).length ≤ 4 := by
  refine ⟨?_, by decide, by decide, by decide, by decide⟩
  intro text s hs
  have hs2 : s ∈ (splitSent text.data).filterMap JP.respFilter :=
    (List.take_sublist 10 _).subset hs
  obtain ⟨sent, hsent, hf⟩ := List.mem_filterMap.mp hs2
  simp only [JP.respFilter] at hf
  split_ifs at hf with h1 h2
  · injection hf with h
    subst h
    exact h2

/-- Claim C9 witness: the universal part applied to a six-word
responsibility sentence extracted from itself. -/
theorem c9_witness :
    4 < (pySplitWs ("You will design and build scalable systems").data).length :=
  c9_holds.1 "You will design and build scalable systems"
    "You will design and build scalable systems" (by decide)

/-- Claim C4: when the job-side skill extraction is empty both the matched
and the missing lists are empty and the match score is exactly zero - a
number, not an error; the embedding is total, so no exception can occur. -/
theorem c4_holds (resumeText jobText : String)
    (h : RB.extract_skills jobText = []) :
    (RB.analyze_job_fit resumeText jobText).match_score = 0 ∧
    (RB.analyze_job_fit resumeText jobText).matched_skills = [] ∧
    (RB.analyze_job_fit resumeText jobText).missing_skills = [] := by
  unfold RB.analyze_job_fit
  rw [h]
  have hmat : RB.matchedFull (RB.extract_skills resumeText) [] = [] := by
    simp [RB.matchedFull, RB.jobPairs, concatMap]
  have hmis : RB.missingFull (RB.extract_skills resumeText) [] = [] := by
    simp [RB.missingFull, RB.jobPairs, concatMap]
  have hraw : RB.matchRaw (RB.extract_skills resumeText) [] = 0 := by
    unfold RB.matchRaw
    rw [hmat, hmis]
    simp
  refine ⟨?_, ?_, ?_⟩
  · show RB.round1 (RB.matchRaw _ _) = 0
    rw [hraw]
    exact round1_zero
  · show (RB.matchedFull _ _).take 10 = []
    rw [hmat]
    rfl
  · show (RB.missingFull _ _).take 10 = []
    rw [hmis]
    rfl

/-- Claim C4 witness: both texts empty; the job extraction is empty and the
match score is zero. -/
theorem c4_witness :
    RB.extract_skills "" = [] ∧ (RB.analyze_job_fit "" "").match_score = 0 :=
  ⟨by decide, (c4_holds "" "" (by decide)).1⟩

/-- Claim C7: matching a grouped extraction against itself scores exactly
100 whenever it holds at least one skill; every pair is matched and none is
missing.  The hypotheses say that R is a well-formed non-empty grouped
extraction: distinct category keys and no empty category list. -/
theorem c7_holds (R : List (String × List String))
    (hkeys : (R.map Prod.fst).Nodup)
    (hvals : ∀ p ∈ R, p.2 ≠ [])
    (hne : R ≠ []) :
    (RB.analyze_core R R).match_score = 100 ∧
    (RB.analyze_core R R).missing_skills = [] := by
  have hall : ∀ q ∈ RB.jobPairs R, q.2 ∈ RB.lookupSkills R q.1 := by
    intro q hq
    obtain ⟨p, hp, hqp⟩ := mem_concatMap.mp hq
    obtain ⟨s, hs, hsq⟩ := List.mem_map.mp hqp
    rw [← hsq]
    rw [show ((p.1, s) : String × String).1 = p.1 from rfl]
    rw [lookupSkills_eq_of_mem R hkeys p hp]
    exact hs
  have hmatched : RB.matchedFull R R = (RB.jobPairs R).map Prod.snd := by
    unfold RB.matchedFull
    congr 1
    apply List.filter_eq_self.mpr
    intro q hq
    exact decide_eq_true (hall q hq)
  have hmissing : RB.missingFull R R = [] := by
    unfold RB.missingFull
    rw [show (RB.jobPairs R).filter
        (fun q => !decide (q.2 ∈ RB.lookupSkills R q.1)) = [] from ?_]
    · rfl
    · apply List.filter_eq_nil_iff.mpr
      intro q hq
      simp [hall q hq]
  have hm : 0 < (RB.matchedFull R R).length := by
    rw [hmatched, List.length_map]
    obtain ⟨p, hp⟩ := List.exists_mem_of_ne_nil R hne
    obtain ⟨s, hs⟩ := List.exists_mem_of_ne_nil p.2 (hvals p hp)
    have hpair : (p.1, s) ∈ RB.jobPairs R :=
      mem_concatMap.mpr ⟨p, hp, List.mem_map_of_mem (fun x => (p.1, x)) hs⟩
    exact List.length_pos.mpr (List.ne_nil_of_mem hpair)
  have hnz : ((RB.matchedFull R R).length : ℚ) ≠ 0 := by
    exact_mod_cast Nat.pos_iff_ne_zero.mp hm
  have hraw : RB.matchRaw R R = 100 := by
    unfold RB.matchRaw
    rw [hmissing]
    simp only [List.length_nil, Nat.add_zero, Nat.cast_zero, add_zero]
    rw [if_pos hm, div_self hnz, one_mul]
  constructor
  · show RB.round1 (RB.matchRaw R R) = 100
    rw [hraw]
    exact round1_hundred
  · show (RB.missingFull R R).take 10 = []
    rw [hmissing]
    rfl

/-- Claim C7 witness: a one-category one-skill extraction matched against
itself scores 100. -/
theorem c7_witness :
    (RB.analyze_core [("Programming", ["Python"])]
      [("Programming", ["Python"])]).match_score = 100 :=
  (c7_holds [("Programming", ["Python"])] (by decide) (by decide) (by decide)).1

/-- Claim C8, counterexample: a resume whose summary has exactly fifty
characters earns no bonus from the code (its ATS score is zero with all
other fields empty) and receives the summary-length feedback, while the
claimed half-open interval awards ten points at length fifty. -/
theorem c8_counterexample :
    (RB.calculate_ats_score c8Input).score = 0 ∧
    summary_bonus_claimed c8Input.summary = 10 ∧
    c8Input.summary.length = 50 ∧
    "⚠️ Summary should be 50-200 characters" ∈ (RB.calculate_ats_score c8Input).feedback := by
  refine ⟨by decide, by decide, by decide, by decide⟩

/-- Claim C8 as amended: the ten-point summary bonus is granted exactly when
the summary length lies in the open interval between 50 and 200 - length
exactly fifty earns nothing - and the summary-length feedback is appended
exactly when the bonus is not granted. -/
theorem c8_holds (d : RB.AtsInput) :
    RB.ats_raw_score d =
      RB.ats_raw_score { d with summary := "" } +
        (if 50 < d.summary.length ∧ d.summary.length < 200 then 10 else 0) ∧
    ("⚠️ Summary should be 50-200 characters" ∈ (RB.calculate_ats_score d).feedback ↔
      ¬ (50 < d.summary.length ∧ d.summary.length < 200)) := by
  have hz : ¬ (50 < ("" : String).length ∧ ("" : String).length < 200) := by decide
  constructor
  · simp only [RB.ats_raw_score]
    rw [if_neg hz]
    omega
  · have hne1 : ("⚠️ Summary should be 50-200 characters" : String) ≠
        "Missing experience section" := by decide
    have hne2 : ("⚠️ Summary should be 50-200 characters" : String) ≠
        "Missing education section" := by decide
    have hne3 : ("⚠️ Summary should be 50-200 characters" : String) ≠
        "Missing skills section" := by decide
    have hne4 : ("⚠️ Summary should be 50-200 characters" : String) ≠
        "✅ Good use of action verbs and quantifiable results" := by decide
    have hne5 : ("⚠️ Summary should be 50-200 characters" : String) ≠
        "⚠️ Add more quantifiable achievements" := by decide
    simp only [RB.calculate_ats_score, RB.ats_feedback]
    by_cases hc : 50 < d.summary.length ∧ d.summary.length < 200
    all_goals simp [hc, hne1, hne2, hne3, hne4, hne5]
    all_goals try split_ifs
    all_goals simp [hne1, hne2, hne3, hne4, hne5]

/-- Claim C10: the match score is computed from the full matched and missing
lists before the cap of ten; on this instance there are twelve matches and
four misses, so the score is 75, while recomputing the percentage from the
truncated returned lists (ten matched, four missing) would give a different
value. -/
theorem c10_holds :
    RB.analyze_job_fit c10ResumeText c10JobText =
      { match_score := 75,
        matched_skills := ["Python", "Java", "JavaScript", "SQL", "R", "HTML", "CSS",
          "React", "Angular", "Vue"],
        missing_skills := ["Go", "Rust", "MySQL", "Redis"],
        suggestions := ["Add these skills: Go, Rust, MySQL, Redis",
          "Use more quantifiable achievements", "Tailor your summary to the job role"] } ∧
    RB.round1
        (((RB.analyze_job_fit c10ResumeText c10JobText).matched_skills.length : ℚ)
          / (((RB.analyze_job_fit c10ResumeText c10JobText).matched_skills.length : ℚ)
            + ((RB.analyze_job_fit c10ResumeText c10JobText).missing_skills.length : ℚ))
          * 100) ≠
      (RB.analyze_job_fit c10ResumeText c10JobText).match_score := by
  refine ⟨by with_unfolding_all decide, by with_unfolding_all decide⟩

example : searchSpan (litStr "abc") "xxabcy".data 0 = some (2, 5, []) := by decide
example : finditer digitsRx "a12b3".data = [(1, 3), (4, 5)] := by decide
example : searchSpan (seqL [.wordB, litStr "go", .wordB]) "django go".data 0 =
    some (7, 9, []) := by decide
example : searchSpan (seqL [.wordB, litStr "java", .wordB]) "javascript".data 0 = none := by
  decide
example : splitSent "a.. b!c".data = ["a".data, " b".data, "c".data] := by decide
example : pySplitWs "  a  bb ".data = ["a".data, "bb".data] := by decide
